import Mathlib

/-!
# geochats-backend: the geo HTTP handlers

A shallow embedding of `api/v1/geo/geo.go`.  The two handlers `PostGeo` and
`GetGeo` are translated as state-passing functions: the state holds the
storage, the sequence of storage calls issued so far, the `net/http`
response writer and whether the request body has been closed.  A Go `panic`
is an explicit outcome of a handler.

Collaborators that live outside the file are taken as parameters
(`Lib`, `GeoStorage`, `ChatStorage`, `Router`) or, where the specification
describes them, are modelled from it and marked so.
-/

namespace Geochats

/-! ## Data model -/

/-- A `float64` value.  The handlers only move coordinates around and the
validation only compares them with its bounds, so the finite values are
modelled by rationals; NaN and the infinities are outside the model. -/
abbrev Float64 := ℚ

/-- A Go `error` value, identified with its message. -/
abbrev Error := String

/-- The identifier type of the entities, represented by its hexadecimal form;
the zero value is the empty identifier. -/
structure ObjectId where
  raw : String
deriving DecidableEq, Repr

/-- The method `ID.Hex()`: the hexadecimal form of an identifier. -/
def ObjectId.Hex (id : ObjectId) : String := id.raw

/-- The entity `Geo`: a latitude and a longitude. -/
structure Geo where
  Latitude : Float64
  Longitude : Float64
deriving DecidableEq, Repr

/-- The entity `Point`: an identifier and an embedded `Geo`. -/
structure Point extends Geo where
  ID : ObjectId
deriving DecidableEq, Repr

/-- The entity `Area`: an embedded `Geo` (the centre) and the two deltas. -/
structure Area extends Geo where
  LatitudeDelta : Float64
  LongitudeDelta : Float64
deriving DecidableEq, Repr

/-- A Go slice value: `none` is the nil slice, `some l` a slice that is not
nil and holds the elements `l`, possibly none. -/
abbrev Slice (α : Type) := Option (List α)

/-- The entity `Chat`: an identifier, a title and the identifier of its point. -/
structure Chat where
  ID : ObjectId
  Title : String
  PointID : ObjectId
deriving DecidableEq, Repr

/-! ## Validation -/

/-- Modelled from the spec: the entity package with the validation tags of
`Geo` is absent; section 3 gives latitude the range -90..90 and longitude the
range -180..180 and has both required, which `govalidator` reads on a number
as a value other than zero.  The result lists the fields that break a
constraint. -/
def Geo.violations (g : Geo) : List String :=
  (if g.Latitude ≠ 0 ∧ -90 ≤ g.Latitude ∧ g.Latitude ≤ 90 then [] else ["latitude"]) ++
  (if g.Longitude ≠ 0 ∧ -180 ≤ g.Longitude ∧ g.Longitude ≤ 180 then [] else ["longitude"])

/-- Modelled from the spec: the validation tags of `Point` are absent; a
point carries the constraints of its embedded `Geo` and its identifier is
assigned by storage, hence unconstrained. -/
def Point.violations (p : Point) : List String :=
  p.toGeo.violations

/-- Modelled from the spec: the validation tags of `Area` are absent; section
3 constrains the centre like a `Geo` and requires both deltas to be
non-negative. -/
def Area.violations (a : Area) : List String :=
  a.toGeo.violations ++
  (if 0 ≤ a.LatitudeDelta then [] else ["latitudeDelta"]) ++
  (if 0 ≤ a.LongitudeDelta then [] else ["longitudeDelta"])

/-- Modelled from the spec: the validation tags of `Chat` are absent; section
3 requires a non-empty title and leaves the point reference to be set after
the owning point exists. -/
def Chat.violations (c : Chat) : List String :=
  if c.Title = "" then ["title"] else []

/-- The call `govalidator.ValidateStruct`: the error is `nil` (here `none`)
exactly when no field breaks its constraint, and otherwise enumerates the
failing fields. -/
def ValidateStruct {α : Type} (violations : α → List String) (x : α) : Option (List String) :=
  match violations x with
  | [] => none
  | f :: fs => some (f :: fs)

/-! ## The `net/http` response writer -/

/-- The state of an `http.ResponseWriter`: the live header map, whether the
status line has been committed, the committed status, the header set that
was frozen when the status line was committed, and the body written. -/
structure ResponseWriter where
  header : List (String × String)
  wroteHeader : Bool
  status : Nat
  sentHeader : List (String × String)
  body : String
deriving DecidableEq, Repr

/-- The response writer a handler receives from the server. -/
def newResponse : ResponseWriter :=
  { header := [], wroteHeader := false, status := 0, sentHeader := [], body := "" }

/-- The bytes `net/textproto` accepts in a header field name. -/
def validHeaderFieldByte (c : Char) : Bool :=
  c.isAlphanum || "!#$%&*+-.^_|~".toList.contains c || c.toNat == 39 || c.toNat == 96

/-- The letter-case pass of `CanonicalMIMEHeaderKey`: the first letter and
every letter after a hyphen upper case, the others lower case. -/
def canonicalCase : Bool → List Char → List Char
  | _, [] => []
  | upper, c :: cs =>
    (if upper then c.toUpper else c.toLower) :: canonicalCase (c == '-') cs

/-- The function `textproto.CanonicalMIMEHeaderKey`: a key holding a byte that
is not valid in a field name is returned unchanged. -/
def CanonicalMIMEHeaderKey (s : String) : String :=
  if s.toList.all validHeaderFieldByte then String.mk (canonicalCase true s.toList) else s

/-- Assignment in a header map: the value stored under the key is replaced. -/
def headerSet (key value : String) : List (String × String) → List (String × String)
  | [] => [(key, value)]
  | (k, v) :: rest =>
    if k = key then (key, value) :: rest else (k, v) :: headerSet key value rest

/-- Lookup in a header map. -/
def headerGet (key : String) : List (String × String) → Option String
  | [] => none
  | (k, v) :: rest => if k = key then some v else headerGet key rest

/-- The call `resp.Header().Set(key, value)`: the live header map is updated
under the canonical key; a header set that was already sent is not. -/
def ResponseWriter.HeaderSet (w : ResponseWriter) (key value : String) : ResponseWriter :=
  { w with header := headerSet (CanonicalMIMEHeaderKey key) value w.header }

/-- The constant `http.StatusCreated`. -/
def StatusCreated : Nat := 201

/-- The constant `http.StatusOK`. -/
def StatusOK : Nat := 200

/-- The call `resp.WriteHeader(code)`: the first call commits the status and
freezes the header set as it is at that moment; a later call is ignored. -/
def ResponseWriter.WriteHeader (w : ResponseWriter) (code : Nat) : ResponseWriter :=
  if w.wroteHeader then w
  else { w with wroteHeader := true, status := code, sentHeader := w.header }

/-- The call `resp.Write(data)`: commits status 200 when no status has been
committed yet, then appends to the body. -/
def ResponseWriter.Write (w : ResponseWriter) (data : String) : ResponseWriter :=
  let w1 := if w.wroteHeader then w else w.WriteHeader StatusOK
  { w1 with body := w1.body ++ data }

/-- The value of a header in the response as it is sent: the lookup is in the
header set frozen when the status line was committed. -/
def ResponseWriter.sent (w : ResponseWriter) (key : String) : Option String :=
  headerGet (CanonicalMIMEHeaderKey key) w.sentHeader

/-! ## Collaborators -/

/-- The library functions the handlers call and the parts of the absent
helpers package the specification leaves open: decoding a point from a
request body, encoding a point as JSON, `strconv.ParseFloat(v, 64)`, and
the 4xx status and the payload of a validation error response. -/
structure Lib where
  decodePoint : String → Except Error Point
  marshalPoint : Point → String
  parseFloat : String → Except Error Float64
  validationStatus : Nat
  validationStatus_4xx : 400 ≤ validationStatus ∧ validationStatus < 500
  renderErrors : List String → String

/-- The geo storage adapter over a storage state. -/
structure GeoStorage (σ : Type) where
  AddPoint : σ → Point → Except Error Point × σ
  GetPointsInArea : σ → Area → Except Error (Slice Point) × σ

/-- The chat storage adapter over a storage state. -/
structure ChatStorage (σ : Type) where
  AddChat : σ → Chat → Except Error Chat × σ

/-- A named `mux.Route`: `URL` builds a URL from a list of key/value pairs. -/
structure Route where
  URL : List String → Except Error String

/-- A `mux.Router`: `Get` yields the route registered under a name, if any. -/
structure Router where
  Get : String → Option Route

/-- The struct `GeoHandlers`. -/
structure GeoHandlers (σ : Type) where
  geoStorage : GeoStorage σ
  chatStorage : ChatStorage σ
  router : Router

/-- An HTTP request: its body and the path variables `mux.Vars(req)`, listed
in the order in which the `range` loop over that map yields them. -/
structure Request where
  Body : String
  Vars : List (String × String)

/-- A call issued to a storage adapter. -/
inductive StorageCall where
  | AddPoint (point : Point)
  | AddChat (chat : Chat)
  | GetPointsInArea (area : Area)
deriving DecidableEq, Repr

/-- The state a handler acts on. -/
structure World (σ : Type) where
  store : σ
  calls : List StorageCall
  resp : ResponseWriter
  bodyClosed : Bool

/-- How a handler ends: it returns, or it panics with an error. -/
inductive Outcome where
  | returned
  | panicked (err : Error)
deriving DecidableEq, Repr

/-! ## Helpers of the `helpers` package -/

/-- Modelled from the spec: `helpers.JSONResponse` is absent; every response
of section 6 is JSON, so the helper declares the JSON content type in the
header map and leaves status and body alone. -/
def JSONResponse (resp : ResponseWriter) : ResponseWriter :=
  resp.HeaderSet "Content-Type" "application/json"

/-- Modelled from the spec: `helpers.ValidationError` is absent; section 7
has a validation failure surfaced as a 4xx response with a structured
field-error payload. -/
def ValidationError (lib : Lib) (resp : ResponseWriter) (err : List String) : ResponseWriter :=
  (resp.WriteHeader lib.validationStatus).Write (lib.renderErrors err)

/-- The deferred `helpers.MustCloseBody(req)`: it runs when the handler
returns and when it panics, and closes the request body. -/
def MustCloseBody {σ : Type} (w : World σ) : World σ :=
  { w with bodyClosed := true }

/-- The JSON encoding of a slice of points as `encoding/json` produces it:
`null` for the nil slice, otherwise a JSON array of the encodings of the
elements, in the order of the slice. -/
def marshalPoints (lib : Lib) (points : Slice Point) : String :=
  match points with
  | none => "null"
  | some elems => "[" ++ ",".intercalate (elems.map lib.marshalPoint) ++ "]"

/-- The call `json.NewEncoder(resp).Encode(v)` on the encoding of `v`: the
encoding followed by a newline is written to the response.  Points hold a
string and two finite numbers and the writer is in memory, so neither
marshalling nor writing has a failing case here and the `panic(err)` after
the call is unreachable. -/
def Encode (resp : ResponseWriter) (encoding : String) : ResponseWriter :=
  resp.Write (encoding ++ "\n")

/-! ## The handlers -/

/-- The method `consumePoint`: an error result stands for `panic(err)`. -/
def consumePoint (lib : Lib) (req : Request) : Except Error Point :=
  lib.decodePoint req.Body

/-- The method `validatePoint`. -/
def validatePoint (point : Point) : Option (List String) :=
  ValidateStruct Point.violations point

/-- The method `validateChat`. -/
def validateChat (chat : Chat) : Option (List String) :=
  ValidateStruct Chat.violations chat

/-- The method `createPoint`: an error result stands for `panic(err)`.  The
response writer argument of the method is not used by it. -/
def createPoint {σ : Type} (hs : GeoHandlers σ) (point : Point) (w : World σ) :
    Except Error Point × World σ :=
  let r := hs.geoStorage.AddPoint w.store point
  (r.1, { w with store := r.2, calls := w.calls ++ [StorageCall.AddPoint point] })

/-- The method `addChatAtPoint`: an error result stands for `panic(err)`. -/
def addChatAtPoint {σ : Type} (hs : GeoHandlers σ) (chat : Chat) (point : Point) (w : World σ) :
    Except Error Chat × World σ :=
  let chatCopy : Chat := { chat with PointID := point.ID }
  let r := hs.chatStorage.AddChat w.store chatCopy
  (r.1, { w with store := r.2, calls := w.calls ++ [StorageCall.AddChat chatCopy] })

/-- The chat literal of `PostGeo`: only the title is set. -/
def defaultChat : Chat :=
  { ID := ⟨""⟩, Title := "No name", PointID := ⟨""⟩ }

/-- The body of `PostGeo`, before the deferred call runs. -/
def PostGeoBody {σ : Type} (lib : Lib) (hs : GeoHandlers σ) (resp : ResponseWriter)
    (req : Request) (store : σ) : Outcome × World σ :=
  let w0 : World σ :=
    { store := store, calls := [], resp := JSONResponse resp, bodyClosed := false }
  match consumePoint lib req with
  | .error err => (.panicked err, w0)
  | .ok userProvidenPoint =>
    match validatePoint userProvidenPoint with
    | some err => (.returned, { w0 with resp := ValidationError lib w0.resp err })
    | none =>
      match createPoint hs userProvidenPoint w0 with
      | (.error err, w1) => (.panicked err, w1)
      | (.ok createdPoint, w1) =>
        let chat := defaultChat
        match validateChat chat with
        | some err => (.returned, { w1 with resp := ValidationError lib w1.resp err })
        | none =>
          match addChatAtPoint hs chat createdPoint w1 with
          | (.error err, w2) => (.panicked err, w2)
          | (.ok _, w2) =>
            let w3 := { w2 with resp := w2.resp.WriteHeader StatusCreated }
            match hs.router.Get "get-chat" with
            | none => (.panicked "runtime error: invalid memory address or nil pointer dereference", w3)
            | some route =>
              match route.URL ["chatID", createdPoint.ID.Hex] with
              | .error err => (.panicked err, w3)
              | .ok retLocation =>
                let w4 := { w3 with resp := w3.resp.HeaderSet "location" retLocation }
                (.returned,
                  { w4 with resp := Encode w4.resp (lib.marshalPoint createdPoint) })

/-- The handler `PostGeo`. -/
def PostGeo {σ : Type} (lib : Lib) (hs : GeoHandlers σ) (resp : ResponseWriter)
    (req : Request) (store : σ) : Outcome × World σ :=
  let r := PostGeoBody lib hs resp req store
  (r.1, MustCloseBody r.2)

/-- The loop of `GetGeo` over the path variables: every value is parsed and
stored in `areaMap` under its key; the first value that does not parse ends
the loop with `panic(err)`, here an error result. -/
def parseVars (lib : Lib) :
    List (String × String) → (String → Float64) → Except Error (String → Float64)
  | [], areaMap => .ok areaMap
  | (k, v) :: rest, areaMap =>
    match lib.parseFloat v with
    | .error err => .error err
    | .ok f => parseVars lib rest (Function.update areaMap k f)

/-- The area literal of `GetGeo`; a key missing from a Go map reads as zero. -/
def areaOf (areaMap : String → Float64) : Area :=
  { Latitude := areaMap "latitude"
    Longitude := areaMap "longitude"
    LatitudeDelta := areaMap "latitudeDelta"
    LongitudeDelta := areaMap "longitudeDelta" }

/-- The body of `GetGeo`, before the deferred call runs. -/
def GetGeoBody {σ : Type} (lib : Lib) (hs : GeoHandlers σ) (resp : ResponseWriter)
    (req : Request) (store : σ) : Outcome × World σ :=
  let w0 : World σ :=
    { store := store, calls := [], resp := JSONResponse resp, bodyClosed := false }
  match parseVars lib req.Vars (fun _ => 0) with
  | .error err => (.panicked err, w0)
  | .ok areaMap =>
    let area := areaOf areaMap
    match ValidateStruct Area.violations area with
    | some err => (.returned, { w0 with resp := ValidationError lib w0.resp err })
    | none =>
      let r := hs.geoStorage.GetPointsInArea w0.store area
      let w1 := { w0 with store := r.2, calls := w0.calls ++ [StorageCall.GetPointsInArea area] }
      match r.1 with
      | .error err => (.panicked err, w1)
      | .ok points => (.returned, { w1 with resp := Encode w1.resp (marshalPoints lib points) })

/-- The handler `GetGeo`. -/
def GetGeo {σ : Type} (lib : Lib) (hs : GeoHandlers σ) (resp : ResponseWriter)
    (req : Request) (store : σ) : Outcome × World σ :=
  let r := GetGeoBody lib hs resp req store
  (r.1, MustCloseBody r.2)

/-- The path variables of the route `get-geo` registered by `Bind`, for the
four path segments of a request. -/
def geoVars (latitude longitude latitudeDelta longitudeDelta : String) :
    List (String × String) :=
  [("latitude", latitude), ("longitude", longitude),
   ("latitudeDelta", latitudeDelta), ("longitudeDelta", longitudeDelta)]

/-! ## A concrete deployment, used to evaluate the handlers -/

/-- An in-memory storage state: the stored points and the stored chats. -/
abbrev MemStore := List Point × List Chat

/-- Whether a point lies in the rectangle of an area, borders included. -/
def inArea (a : Area) (p : Point) : Bool :=
  decide (a.Latitude - a.LatitudeDelta ≤ p.Latitude) &&
  decide (p.Latitude ≤ a.Latitude + a.LatitudeDelta) &&
  decide (a.Longitude - a.LongitudeDelta ≤ p.Longitude) &&
  decide (p.Longitude ≤ a.Longitude + a.LongitudeDelta)

/-- The slice a Go loop builds by appending the given elements to a slice
variable that starts out nil: it stays nil when there is nothing to append. -/
def collect {α : Type} : List α → Slice α
  | [] => none
  | x :: xs => some (x :: xs)

/-- An in-memory geo storage: a stored point gets the identifier `p1`, and a
query collects the stored points of the area into a slice. -/
def memGeoStorage : GeoStorage MemStore :=
  { AddPoint := fun s p =>
      (.ok { p with ID := ⟨"p1"⟩ }, (s.1 ++ [{ p with ID := ⟨"p1"⟩ }], s.2))
    GetPointsInArea := fun s a => (.ok (collect (s.1.filter (inArea a))), s) }

/-- An in-memory chat storage: a stored chat gets the identifier `c1`. -/
def memChatStorage : ChatStorage MemStore :=
  { AddChat := fun s c =>
      (.ok { c with ID := ⟨"c1"⟩ }, (s.1, s.2 ++ [{ c with ID := ⟨"c1"⟩ }])) }

/-- A chat storage whose write fails and leaves the state as it was. -/
def downChatStorage : ChatStorage MemStore :=
  { AddChat := fun s _ => (.error "chat storage unavailable", s) }

/-- The route `get-chat` with the template `/chats/{chatID}`. -/
def chatRoute : Route :=
  { URL := fun pairs =>
      match pairs with
      | ["chatID", v] => .ok ("/chats/" ++ v)
      | _ => .error "mux: missing route variable" }

/-- A router on which `get-chat` is registered. -/
def chatRouter : Router :=
  { Get := fun name => if name = "get-chat" then some chatRoute else none }

/-- A router on which no route is registered. -/
def bareRouter : Router :=
  { Get := fun _ => none }

/-- A decoder, an encoder and a number reader that know a few inputs. -/
def demoLib : Lib :=
  { decodePoint := fun body =>
      if body = "lat=10 lon=20" then .ok { Latitude := 10, Longitude := 20, ID := ⟨""⟩ }
      else if body = "lat=91 lon=20" then .ok { Latitude := 91, Longitude := 20, ID := ⟨""⟩ }
      else .error "invalid character"
    marshalPoint := fun p =>
      if p.Latitude = 10 ∧ p.Longitude = 20 then "(" ++ p.ID.Hex ++ " 10 20)"
      else "(" ++ p.ID.Hex ++ " other)"
    parseFloat := fun v =>
      if v = "10" then .ok 10
      else if v = "20" then .ok 20
      else if v = "1" then .ok 1
      else if v = "2" then .ok 2
      else if v = "-1" then .ok (-1)
      else .error "strconv.ParseFloat: invalid syntax"
    validationStatus := 400
    validationStatus_4xx := by decide
    renderErrors := fun errs => ";".intercalate errs }

/-- The handlers over the in-memory storage with `get-chat` registered. -/
def demoHandlers : GeoHandlers MemStore :=
  { geoStorage := memGeoStorage, chatStorage := memChatStorage, router := chatRouter }

/-- The handlers over the in-memory storage with no `get-chat` route. -/
def handlersNoRoute : GeoHandlers MemStore :=
  { geoStorage := memGeoStorage, chatStorage := memChatStorage, router := bareRouter }

/-- The handlers whose chat storage is unavailable. -/
def handlersChatDown : GeoHandlers MemStore :=
  { geoStorage := memGeoStorage, chatStorage := downChatStorage, router := chatRouter }

/-- The stored points of the query scenario: (10.5, 20.5) and (50, 50). -/
def fixtureStore : MemStore :=
  ([{ Latitude := 21 / 2, Longitude := 41 / 2, ID := ⟨"a"⟩ },
    { Latitude := 50, Longitude := 50, ID := ⟨"b"⟩ }], [])

/-- A request body the demo decoder reads as the point (10, 20). -/
def goodRequest : Request :=
  { Body := "lat=10 lon=20", Vars := [] }

/-- A request body the demo decoder reads as the point (91, 20). -/
def badRequest : Request :=
  { Body := "lat=91 lon=20", Vars := [] }

/-- The point (10, 20) as decoded, without an identifier. -/
def goodPoint : Point :=
  { Latitude := 10, Longitude := 20, ID := ⟨""⟩ }

/-- The point (91, 20) as decoded, without an identifier. -/
def badPoint : Point :=
  { Latitude := 91, Longitude := 20, ID := ⟨""⟩ }

/-- The point (10, 20) as the in-memory storage returns it. -/
def storedPoint : Point :=
  { Latitude := 10, Longitude := 20, ID := ⟨"p1"⟩ }

/-- The chat as the in-memory storage returns it for the stored point. -/
def storedChat : Chat :=
  { ID := ⟨"c1"⟩, Title := "No name", PointID := ⟨"p1"⟩ }

/-- The area of the query scenario: centre (10, 20), deltas 1 and 1. -/
def queryArea : Area :=
  { Latitude := 10, Longitude := 20, LatitudeDelta := 1, LongitudeDelta := 1 }

/-- The first stored point of the query scenario. -/
def nearPoint : Point :=
  { Latitude := 21 / 2, Longitude := 41 / 2, ID := ⟨"a"⟩ }

/-- A stored point at (10.5, 21.5). -/
def eastPoint : Point :=
  { Latitude := 21 / 2, Longitude := 43 / 2, ID := ⟨"e"⟩ }

/-- A storage state holding the point at (10.5, 21.5) only. -/
def eastStore : MemStore :=
  ([eastPoint], [])

/-- An iteration order of the path variables of the query 10,20,1,2. -/
def unevenVars : List (String × String) :=
  [("longitudeDelta", "2"), ("latitude", "10"), ("latitudeDelta", "1"), ("longitude", "20")]

/-- The path variables of the query 20,10,1,1, which matches no stored point
of the query scenario. -/
def emptyQueryVars : List (String × String) :=
  [("latitude", "20"), ("longitude", "10"), ("latitudeDelta", "1"), ("longitudeDelta", "1")]

/-- An iteration order of the path variables of the query scenario. -/
def shuffledVars : List (String × String) :=
  [("longitudeDelta", "1"), ("latitude", "10"), ("latitudeDelta", "1"), ("longitude", "20")]

/-! ## The loop over the path variables -/

/-- A value that does not parse makes the loop panic, wherever it stands in
the iteration order. -/
theorem parseVars_error {lib : Lib} :
    ∀ (vars : List (String × String)) (m : String → Float64),
      (∃ kv ∈ vars, ∃ e, lib.parseFloat kv.2 = .error e) →
      ∃ e, parseVars lib vars m = .error e
  | [], _, h => by simp at h
  | (k, v) :: rest, m, h => by
    cases hp : lib.parseFloat v with
    | error e => exact ⟨e, by simp [parseVars, hp]⟩
    | ok f =>
      have hrest : ∃ kv ∈ rest, ∃ e, lib.parseFloat kv.2 = .error e := by
        obtain ⟨kv, hmem, e, he⟩ := h
        rcases List.mem_cons.1 hmem with rfl | hmem
        · simp [hp] at he
        · exact ⟨kv, hmem, e, he⟩
      obtain ⟨e, he⟩ := parseVars_error rest (Function.update m k f) hrest
      exact ⟨e, by simp [parseVars, hp, he]⟩

/-- When every value parses the loop ends normally; a key that is not
iterated keeps its old entry, and with distinct keys every iterated key
holds the parsed value of its own variable. -/
theorem parseVars_ok {lib : Lib} :
    ∀ (vars : List (String × String)) (m : String → Float64),
      (∀ kv ∈ vars, ∃ f, lib.parseFloat kv.2 = .ok f) →
      ∃ m1, parseVars lib vars m = .ok m1 ∧
        (∀ k, k ∉ vars.map Prod.fst → m1 k = m k) ∧
        ((vars.map Prod.fst).Nodup →
          ∀ k v f, (k, v) ∈ vars → lib.parseFloat v = .ok f → m1 k = f)
  | [], m, _ => ⟨m, rfl, fun _ _ => rfl, fun _ k v f hmem => by simp at hmem⟩
  | (k0, v0) :: rest, m, h => by
    obtain ⟨f0, hf0⟩ := h (k0, v0) (List.mem_cons_self _ _)
    have hrest : ∀ kv ∈ rest, ∃ f, lib.parseFloat kv.2 = .ok f :=
      fun kv hkv => h kv (List.mem_cons_of_mem _ hkv)
    obtain ⟨m1, hm1, hkeep, hval⟩ := parseVars_ok rest (Function.update m k0 f0) hrest
    refine ⟨m1, by simp [parseVars, hf0, hm1], ?_, ?_⟩
    · intro k hk
      simp only [List.map_cons, List.mem_cons, not_or] at hk
      rw [hkeep k hk.2, Function.update_noteq hk.1]
    · intro hnd k v f hmem hf
      simp only [List.map_cons, List.nodup_cons] at hnd
      rcases List.mem_cons.1 hmem with heq | hmem
      · obtain ⟨rfl, rfl⟩ := Prod.mk.inj heq
        rw [hkeep k hnd.1, Function.update_same]
        rw [hf0] at hf
        exact Except.ok.inj hf
      · exact hval hnd.2 k v f hmem hf

/-- For the four path variables of `get-geo`, all parsing, the loop builds a
map from which the area literal reads each field from the variable of the
same name, in whatever order the variables are iterated. -/
theorem parseVars_geoVars {lib : Lib} {order : List (String × String)}
    {a b c d : String} {la lo dla dlo : Float64}
    (hperm : order.Perm (geoVars a b c d))
    (ha : lib.parseFloat a = .ok la) (hb : lib.parseFloat b = .ok lo)
    (hc : lib.parseFloat c = .ok dla) (hd : lib.parseFloat d = .ok dlo) :
    ∃ m, parseVars lib order (fun _ => 0) = .ok m ∧
      areaOf m = { Latitude := la, Longitude := lo, LatitudeDelta := dla, LongitudeDelta := dlo } := by
  have hall : ∀ kv ∈ order, ∃ f, lib.parseFloat kv.2 = .ok f := by
    intro kv hkv
    have hmem := hperm.mem_iff.1 hkv
    simp only [geoVars, List.mem_cons, List.mem_singleton, List.mem_nil_iff, or_false] at hmem
    rcases hmem with rfl | rfl | rfl | rfl
    · exact ⟨la, ha⟩
    · exact ⟨lo, hb⟩
    · exact ⟨dla, hc⟩
    · exact ⟨dlo, hd⟩
  have hnd : (order.map Prod.fst).Nodup := by
    rw [(hperm.map Prod.fst).nodup_iff]
    simp [geoVars]
  obtain ⟨m, hm, -, hval⟩ := parseVars_ok order (fun _ => 0) hall
  refine ⟨m, hm, ?_⟩
  have h1 := hval hnd "latitude" a la (hperm.mem_iff.2 (by simp [geoVars])) ha
  have h2 := hval hnd "longitude" b lo (hperm.mem_iff.2 (by simp [geoVars])) hb
  have h3 := hval hnd "latitudeDelta" c dla (hperm.mem_iff.2 (by simp [geoVars])) hc
  have h4 := hval hnd "longitudeDelta" d dlo (hperm.mem_iff.2 (by simp [geoVars])) hd
  simp [areaOf, h1, h2, h3, h4]

/-- A struct with a violated constraint does not validate. -/
theorem ValidateStruct_ne_none {α : Type} (violations : α → List String) (x : α)
    (h : violations x ≠ []) : ∃ errs, ValidateStruct violations x = some errs := by
  unfold ValidateStruct
  cases hv : violations x with
  | nil => exact absurd hv h
  | cons f fs => exact ⟨f :: fs, rfl⟩

/-- A struct that does not validate yields an error value. -/
theorem ValidateStruct_some_of_ne_none {α : Type} (violations : α → List String) (x : α)
    (h : ValidateStruct violations x ≠ none) : ∃ errs, ValidateStruct violations x = some errs := by
  cases hv : ValidateStruct violations x with
  | none => exact absurd hv h
  | some errs => exact ⟨errs, rfl⟩

/-- A point within both ranges and with both coordinates other than zero
validates. -/
theorem validatePoint_in_range (p : Point)
    (hlat : -90 ≤ p.Latitude ∧ p.Latitude ≤ 90) (hlon : -180 ≤ p.Longitude ∧ p.Longitude ≤ 180)
    (hlat0 : p.Latitude ≠ 0) (hlon0 : p.Longitude ≠ 0) :
    validatePoint p = none := by
  simp [validatePoint, ValidateStruct, Point.violations, Geo.violations, hlat, hlon, hlat0, hlon0]

/-- A point that validates lies within both ranges. -/
theorem validatePoint_none_range (p : Point) (h : validatePoint p = none) :
    (-90 ≤ p.Latitude ∧ p.Latitude ≤ 90) ∧ (-180 ≤ p.Longitude ∧ p.Longitude ≤ 180) := by
  unfold validatePoint ValidateStruct at h
  have hnil : Point.violations p = [] := by
    cases hv : Point.violations p with
    | nil => rfl
    | cons f fs => rw [hv] at h; cases h
  simp only [Point.violations, Geo.violations, List.append_eq_nil] at hnil
  obtain ⟨h1, h2⟩ := hnil
  constructor
  · by_contra hc
    rw [if_neg (fun hh => hc hh.2)] at h1
    cases h1
  · by_contra hc
    rw [if_neg (fun hh => hc hh.2)] at h2
    cases h2

/-- A point outside one of the ranges does not validate. -/
theorem validatePoint_out_of_range (p : Point)
    (h : ¬ (-90 ≤ p.Latitude ∧ p.Latitude ≤ 90) ∨ ¬ (-180 ≤ p.Longitude ∧ p.Longitude ≤ 180)) :
    ∃ errs, validatePoint p = some errs := by
  apply ValidateStruct_ne_none
  rcases h with h | h <;> simp [Point.violations, Geo.violations, h]

/-- An area with a negative delta does not validate. -/
theorem validateArea_negative_delta (a : Area)
    (h : a.LatitudeDelta < 0 ∨ a.LongitudeDelta < 0) :
    ∃ errs, ValidateStruct Area.violations a = some errs := by
  apply ValidateStruct_ne_none
  rcases h with h | h <;> simp [Area.violations, not_le.2 h]

/-- The chat literal of `PostGeo` validates. -/
theorem validateChat_defaultChat : validateChat defaultChat = none := by
  simp [validateChat, ValidateStruct, Chat.violations, defaultChat]

/-- The validation error response on a writer whose status is not committed
yet: the 4xx status of the helper and the rendered field errors. -/
theorem ValidationError_fresh (lib : Lib) (resp : ResponseWriter) (errs : List String)
    (h : resp.wroteHeader = false) :
    (ValidationError lib resp errs).status = lib.validationStatus ∧
    (ValidationError lib resp errs).body = resp.body ++ lib.renderErrors errs := by
  simp [ValidationError, ResponseWriter.Write, ResponseWriter.WriteHeader, h]

/-! ## POST /geo -/

/-- The run of `PostGeo` up to the call of AddChat, when the body decodes, the
point validates and AddPoint succeeds: what follows depends on the result of
AddChat alone. -/
theorem PostGeo_run_to_chat {σ : Type} (lib : Lib) (hs : GeoHandlers σ)
    (req : Request) (store s1 : σ) (point created : Point)
    (hdec : lib.decodePoint req.Body = .ok point)
    (hvalid : validatePoint point = none)
    (hadd : hs.geoStorage.AddPoint store point = (.ok created, s1)) :
    PostGeoBody lib hs newResponse req store =
      match addChatAtPoint hs defaultChat created
          { store := s1, calls := [StorageCall.AddPoint point],
            resp := JSONResponse newResponse, bodyClosed := false } with
      | (.error err, w2) => (.panicked err, w2)
      | (.ok _, w2) =>
        match hs.router.Get "get-chat" with
        | none => (.panicked "runtime error: invalid memory address or nil pointer dereference",
            { w2 with resp := w2.resp.WriteHeader StatusCreated })
        | some route =>
          match route.URL ["chatID", created.ID.Hex] with
          | .error err => (.panicked err, { w2 with resp := w2.resp.WriteHeader StatusCreated })
          | .ok retLocation =>
            (.returned,
              { w2 with resp := Encode ((w2.resp.WriteHeader StatusCreated).HeaderSet
                  "location" retLocation) (lib.marshalPoint created) }) := by
  have hc : validateChat defaultChat = none := validateChat_defaultChat
  simp only [PostGeoBody, consumePoint, hdec, hvalid, createPoint, hadd, hc, List.nil_append]

/-- The run of a successful `PostGeo`: the final state in full. -/
theorem PostGeo_run_success {σ : Type} (lib : Lib) (hs : GeoHandlers σ)
    (req : Request) (store s1 s2 : σ) (point created : Point) (chat : Chat)
    (route : Route) (loc : String)
    (hdec : lib.decodePoint req.Body = .ok point)
    (hvalid : validatePoint point = none)
    (hadd : hs.geoStorage.AddPoint store point = (.ok created, s1))
    (hchat : hs.chatStorage.AddChat s1
      { ID := ⟨""⟩, Title := "No name", PointID := created.ID } = (.ok chat, s2))
    (hroute : hs.router.Get "get-chat" = some route)
    (hurl : route.URL ["chatID", created.ID.Hex] = .ok loc) :
    PostGeo lib hs newResponse req store =
      (.returned,
        { store := s2,
          calls := [StorageCall.AddPoint point,
            StorageCall.AddChat { ID := ⟨""⟩, Title := "No name", PointID := created.ID }],
          resp := Encode (((JSONResponse newResponse).WriteHeader StatusCreated).HeaderSet
            "location" loc) (lib.marshalPoint created),
          bodyClosed := true }) := by
  simp [PostGeo, PostGeo_run_to_chat lib hs req store s1 point created hdec hvalid hadd,
    addChatAtPoint, defaultChat, hchat, hroute, hurl, MustCloseBody]

/-- The headers of a successful `PostGeo`: the Location value is the URL
built from the identifier of the created point and is in the live header
map only; the header set frozen by `WriteHeader` has no Location entry. -/
theorem PostGeo_success_headers {σ : Type} (lib : Lib) (hs : GeoHandlers σ)
    (req : Request) (store s1 s2 : σ) (point created : Point) (chat : Chat)
    (route : Route) (loc : String)
    (hdec : lib.decodePoint req.Body = .ok point)
    (hvalid : validatePoint point = none)
    (hadd : hs.geoStorage.AddPoint store point = (.ok created, s1))
    (hchat : hs.chatStorage.AddChat s1
      { ID := ⟨""⟩, Title := "No name", PointID := created.ID } = (.ok chat, s2))
    (hroute : hs.router.Get "get-chat" = some route)
    (hurl : route.URL ["chatID", created.ID.Hex] = .ok loc) :
    headerGet "Location" (PostGeo lib hs newResponse req store).2.resp.header = some loc ∧
    (PostGeo lib hs newResponse req store).2.resp.sent "Location" = none := by
  have hk1 : CanonicalMIMEHeaderKey "location" = "Location" := by decide
  have hk2 : CanonicalMIMEHeaderKey "Location" = "Location" := by decide
  have hk3 : CanonicalMIMEHeaderKey "Content-Type" = "Content-Type" := by decide
  have hne : ("Content-Type" : String) ≠ "Location" := by decide
  rw [PostGeo_run_success lib hs req store s1 s2 point created chat route loc
    hdec hvalid hadd hchat hroute hurl]
  simp [Encode, ResponseWriter.Write, ResponseWriter.WriteHeader, ResponseWriter.HeaderSet,
    ResponseWriter.sent, JSONResponse, newResponse, hk1, hk2, hk3, headerSet, headerGet, hne]

/-- C2: when the decoded point of a POST /geo request fails validation, in
particular when its latitude is outside [-90,90] or its longitude outside
[-180,180], PostGeo writes the validation error response (a 4xx status) and
returns, and the sequence of storage calls is empty: neither AddPoint nor
AddChat is called and the storage is unchanged. -/
theorem PostGeo_invalid_point_stops {σ : Type} (lib : Lib) (hs : GeoHandlers σ)
    (req : Request) (store : σ) (point : Point)
    (hdec : lib.decodePoint req.Body = .ok point)
    (hbad : validatePoint point ≠ none ∨
      ¬ (-90 ≤ point.Latitude ∧ point.Latitude ≤ 90) ∨
      ¬ (-180 ≤ point.Longitude ∧ point.Longitude ≤ 180)) :
    ∃ errs, validatePoint point = some errs ∧
      PostGeo lib hs newResponse req store =
        (.returned, { store := store, calls := [],
                      resp := ValidationError lib (JSONResponse newResponse) errs,
                      bodyClosed := true }) ∧
      400 ≤ (PostGeo lib hs newResponse req store).2.resp.status ∧
      (PostGeo lib hs newResponse req store).2.resp.status < 500 := by
  have hv : ∃ errs, validatePoint point = some errs := by
    rcases hbad with h | h
    · exact ValidateStruct_some_of_ne_none _ _ h
    · exact validatePoint_out_of_range point h
  obtain ⟨errs, herrs⟩ := hv
  have hrun : PostGeo lib hs newResponse req store =
      (.returned, { store := store, calls := [],
                    resp := ValidationError lib (JSONResponse newResponse) errs,
                    bodyClosed := true }) := by
    simp [PostGeo, PostGeoBody, consumePoint, hdec, herrs, MustCloseBody]
  have hst := (ValidationError_fresh lib (JSONResponse newResponse) errs rfl).1
  refine ⟨errs, herrs, hrun, ?_, ?_⟩
  · rw [hrun]; simp only [hst]; exact lib.validationStatus_4xx.1
  · rw [hrun]; simp only [hst]; exact lib.validationStatus_4xx.2

/-- C3: in a successful POST /geo request the storage receives exactly two
calls, in this order: AddPoint with the submitted point, then AddChat with a
chat whose Title is "No name" and whose PointID is the ID of the point that
AddPoint returned. -/
theorem PostGeo_success_two_writes {σ : Type} (lib : Lib) (hs : GeoHandlers σ)
    (req : Request) (store s1 s2 : σ) (point created : Point) (chat : Chat)
    (route : Route) (loc : String)
    (hdec : lib.decodePoint req.Body = .ok point)
    (hvalid : validatePoint point = none)
    (hadd : hs.geoStorage.AddPoint store point = (.ok created, s1))
    (hchat : hs.chatStorage.AddChat s1
      { ID := ⟨""⟩, Title := "No name", PointID := created.ID } = (.ok chat, s2))
    (hroute : hs.router.Get "get-chat" = some route)
    (hurl : route.URL ["chatID", created.ID.Hex] = .ok loc) :
    (PostGeo lib hs newResponse req store).1 = .returned ∧
    (PostGeo lib hs newResponse req store).2.calls =
      [StorageCall.AddPoint point,
       StorageCall.AddChat { ID := ⟨""⟩, Title := "No name", PointID := created.ID }] ∧
    (PostGeo lib hs newResponse req store).2.store = s2 := by
  rw [PostGeo_run_success lib hs req store s1 s2 point created chat route loc
    hdec hvalid hadd hchat hroute hurl]
  exact ⟨rfl, rfl, rfl⟩

/-- C7: when AddPoint succeeds and AddChat then fails, PostGeo panics with
the error of AddChat; the storage calls are AddPoint and the failed AddChat
and nothing after them, so the storage is left as the failed AddChat left it
with the point written; no status is committed, no Location header is set
and no body is written. -/
theorem PostGeo_chat_failure_panics {σ : Type} (lib : Lib) (hs : GeoHandlers σ)
    (req : Request) (store s1 s2 : σ) (point created : Point) (err : Error)
    (hdec : lib.decodePoint req.Body = .ok point)
    (hvalid : validatePoint point = none)
    (hadd : hs.geoStorage.AddPoint store point = (.ok created, s1))
    (hchat : hs.chatStorage.AddChat s1
      { ID := ⟨""⟩, Title := "No name", PointID := created.ID } = (.error err, s2)) :
    PostGeo lib hs newResponse req store =
      (.panicked err,
        { store := s2,
          calls := [StorageCall.AddPoint point,
            StorageCall.AddChat { ID := ⟨""⟩, Title := "No name", PointID := created.ID }],
          resp := JSONResponse newResponse,
          bodyClosed := true }) ∧
    (PostGeo lib hs newResponse req store).2.resp.wroteHeader = false ∧
    headerGet "Location" (PostGeo lib hs newResponse req store).2.resp.header = none ∧
    (PostGeo lib hs newResponse req store).2.resp.body = "" := by
  have hrun : PostGeo lib hs newResponse req store =
      (.panicked err,
        { store := s2,
          calls := [StorageCall.AddPoint point,
            StorageCall.AddChat { ID := ⟨""⟩, Title := "No name", PointID := created.ID }],
          resp := JSONResponse newResponse,
          bodyClosed := true }) := by
    simp [PostGeo, PostGeo_run_to_chat lib hs req store s1 point created hdec hvalid hadd,
      addChatAtPoint, defaultChat, hchat, MustCloseBody]
  have hloc : headerGet "Location" (JSONResponse newResponse).header = none := by decide
  rw [hrun]
  exact ⟨rfl, rfl, hloc, rfl⟩

/-- C5, amended: for a decoded point that validates, hence within both
ranges, when AddPoint returns the point with a non-empty identifier and the
submitted coordinates, AddChat succeeds and the URL of the route get-chat is
built, PostGeo returns with status 201 committed and with a body that is the
JSON encoding, followed by a newline, of the point with the assigned
identifier and exactly the submitted latitude and longitude. -/
theorem PostGeo_created_body {σ : Type} (lib : Lib) (hs : GeoHandlers σ)
    (req : Request) (store s1 s2 : σ) (point created : Point) (chat : Chat)
    (route : Route) (loc : String)
    (hdec : lib.decodePoint req.Body = .ok point)
    (hvalid : validatePoint point = none)
    (hadd : hs.geoStorage.AddPoint store point = (.ok created, s1))
    (hid : created.ID.Hex ≠ "")
    (hgeo : created.toGeo = point.toGeo)
    (hchat : hs.chatStorage.AddChat s1
      { ID := ⟨""⟩, Title := "No name", PointID := created.ID } = (.ok chat, s2))
    (hroute : hs.router.Get "get-chat" = some route)
    (hurl : route.URL ["chatID", created.ID.Hex] = .ok loc) :
    ((-90 ≤ point.Latitude ∧ point.Latitude ≤ 90) ∧
      (-180 ≤ point.Longitude ∧ point.Longitude ≤ 180)) ∧
    (PostGeo lib hs newResponse req store).1 = .returned ∧
    (PostGeo lib hs newResponse req store).2.store = s2 ∧
    (PostGeo lib hs newResponse req store).2.resp.wroteHeader = true ∧
    (PostGeo lib hs newResponse req store).2.resp.status = 201 ∧
    (PostGeo lib hs newResponse req store).2.resp.body =
      lib.marshalPoint
        { Latitude := point.Latitude, Longitude := point.Longitude, ID := created.ID } ++ "\n" ∧
    ({ Latitude := point.Latitude, Longitude := point.Longitude, ID := created.ID } : Point).ID.Hex
      ≠ "" := by
  have hcreated : created =
      { Latitude := point.Latitude, Longitude := point.Longitude, ID := created.ID } := by
    cases created; cases point; simp_all
  rw [PostGeo_run_success lib hs req store s1 s2 point created chat route loc
    hdec hvalid hadd hchat hroute hurl, ← hcreated]
  refine ⟨validatePoint_none_range point hvalid, rfl, rfl, ?_, ?_, ?_, hid⟩ <;>
    simp [Encode, ResponseWriter.Write, ResponseWriter.WriteHeader, ResponseWriter.HeaderSet,
      JSONResponse, newResponse, StatusCreated]

/-- C1: evaluation of PostGeo at a successful request.  The chat that
AddChat returns has the identifier c1 and the point has p1; the URL of
get-chat for the new chat is /chats/c1, and the value PostGeo sets for the
Location header is /chats/p1, built from the identifier of the point. -/
theorem PostGeo_location_names_point :
    (PostGeo demoLib demoHandlers newResponse goodRequest ([], [])).1 = Outcome.returned ∧
    (PostGeo demoLib demoHandlers newResponse goodRequest ([], [])).2.store.2 = [storedChat] ∧
    (demoHandlers.chatStorage.AddChat ([storedPoint], [])
      { ID := ⟨""⟩, Title := "No name", PointID := storedPoint.ID }).1 = .ok storedChat ∧
    chatRoute.URL ["chatID", storedChat.ID.Hex] = .ok "/chats/c1" ∧
    headerGet "Location"
      (PostGeo demoLib demoHandlers newResponse goodRequest ([], [])).2.resp.header
        = some "/chats/p1" :=
  ⟨by decide, by decide, rfl, rfl, by decide⟩

/-- C9: evaluation of PostGeo at a successful request.  Status 201 is
committed before the Location header is set: the header is in the live
header map at the end, but the header set frozen by WriteHeader(201), which
is what the response carries, has no Location entry. -/
theorem PostGeo_location_not_sent :
    (PostGeo demoLib demoHandlers newResponse goodRequest ([], [])).1 = Outcome.returned ∧
    (PostGeo demoLib demoHandlers newResponse goodRequest ([], [])).2.resp.status = 201 ∧
    (PostGeo demoLib demoHandlers newResponse goodRequest ([], [])).2.resp.sentHeader
      = [("Content-Type", "application/json")] ∧
    (PostGeo demoLib demoHandlers newResponse goodRequest ([], [])).2.resp.sent "Location"
      = none ∧
    headerGet "Location"
      (PostGeo demoLib demoHandlers newResponse goodRequest ([], [])).2.resp.header
        = some "/chats/p1" :=
  ⟨by decide, by decide, by decide, by decide, by decide⟩

/-- C5, as stated, fails when the route get-chat is not registered: the point
(10, 20) is within range, AddPoint returns it with the identifier p1 and the
submitted coordinates, AddChat succeeds, and PostGeo panics after committing
status 201 with no body written. -/
theorem PostGeo_no_route_no_body :
    demoLib.decodePoint goodRequest.Body = .ok goodPoint ∧
    validatePoint goodPoint = none ∧
    handlersNoRoute.geoStorage.AddPoint ([], []) goodPoint
      = (.ok storedPoint, ([storedPoint], [])) ∧
    storedPoint.ID.Hex ≠ "" ∧ storedPoint.toGeo = goodPoint.toGeo ∧
    handlersNoRoute.chatStorage.AddChat ([storedPoint], [])
      { ID := ⟨""⟩, Title := "No name", PointID := storedPoint.ID }
      = (.ok storedChat, ([storedPoint], [storedChat])) ∧
    (PostGeo demoLib handlersNoRoute newResponse goodRequest ([], [])).1
      = Outcome.panicked "runtime error: invalid memory address or nil pointer dereference" ∧
    (PostGeo demoLib handlersNoRoute newResponse goodRequest ([], [])).2.resp.body = "" ∧
    (PostGeo demoLib handlersNoRoute newResponse goodRequest ([], [])).2.resp.body
      ≠ demoLib.marshalPoint storedPoint ++ "\n" :=
  ⟨rfl, by decide, rfl, by decide, by decide, rfl, by decide, by decide, by decide⟩

/-! ## GET /geo -/

/-- The run of `GetGeo` when the four path variables all parse: the area is
assembled from the variables of the same names, whatever the iteration
order, and what follows depends on its validation and on the storage. -/
theorem GetGeo_run {σ : Type} (lib : Lib) (hs : GeoHandlers σ) (store : σ)
    (body : String) (order : List (String × String))
    (a b c d : String) (la lo dla dlo : Float64)
    (hperm : order.Perm (geoVars a b c d))
    (ha : lib.parseFloat a = .ok la) (hb : lib.parseFloat b = .ok lo)
    (hc : lib.parseFloat c = .ok dla) (hd : lib.parseFloat d = .ok dlo) :
    GetGeo lib hs newResponse { Body := body, Vars := order } store =
      match ValidateStruct Area.violations
          { Latitude := la, Longitude := lo, LatitudeDelta := dla, LongitudeDelta := dlo } with
      | some err =>
        (.returned, { store := store, calls := [],
                      resp := ValidationError lib (JSONResponse newResponse) err,
                      bodyClosed := true })
      | none =>
        match (hs.geoStorage.GetPointsInArea store
            { Latitude := la, Longitude := lo, LatitudeDelta := dla, LongitudeDelta := dlo }).1 with
        | .error err =>
          (.panicked err,
            { store := (hs.geoStorage.GetPointsInArea store
                { Latitude := la, Longitude := lo, LatitudeDelta := dla,
                  LongitudeDelta := dlo }).2,
              calls := [StorageCall.GetPointsInArea
                { Latitude := la, Longitude := lo, LatitudeDelta := dla,
                  LongitudeDelta := dlo }],
              resp := JSONResponse newResponse, bodyClosed := true })
        | .ok points =>
          (.returned,
            { store := (hs.geoStorage.GetPointsInArea store
                { Latitude := la, Longitude := lo, LatitudeDelta := dla,
                  LongitudeDelta := dlo }).2,
              calls := [StorageCall.GetPointsInArea
                { Latitude := la, Longitude := lo, LatitudeDelta := dla,
                  LongitudeDelta := dlo }],
              resp := Encode (JSONResponse newResponse) (marshalPoints lib points),
              bodyClosed := true }) := by
  obtain ⟨m, hm, harea⟩ := parseVars_geoVars hperm ha hb hc hd
  simp only [GetGeo, GetGeoBody, hm, harea, List.nil_append, MustCloseBody]
  cases ValidateStruct Area.violations
      { Latitude := la, Longitude := lo, LatitudeDelta := dla, LongitudeDelta := dlo } with
  | some err => rfl
  | none =>
    simp only []
    cases (hs.geoStorage.GetPointsInArea store
        { Latitude := la, Longitude := lo, LatitudeDelta := dla, LongitudeDelta := dlo }).1 with
    | error err => rfl
    | ok points => rfl

/-- C4: when the four path values of a GET /geo request parse as floats and
the assembled Area fails validation, in particular when latitudeDelta or
longitudeDelta is negative, GetGeo writes the validation error response (a
4xx status) and returns, and no storage call is issued: GetPointsInArea is
not called. -/
theorem GetGeo_invalid_area_stops {σ : Type} (lib : Lib) (hs : GeoHandlers σ) (store : σ)
    (body : String) (order : List (String × String))
    (a b c d : String) (la lo dla dlo : Float64)
    (hperm : order.Perm (geoVars a b c d))
    (ha : lib.parseFloat a = .ok la) (hb : lib.parseFloat b = .ok lo)
    (hc : lib.parseFloat c = .ok dla) (hd : lib.parseFloat d = .ok dlo)
    (hbad : ValidateStruct Area.violations
        { Latitude := la, Longitude := lo, LatitudeDelta := dla, LongitudeDelta := dlo } ≠ none ∨
      dla < 0 ∨ dlo < 0) :
    ∃ errs,
      ValidateStruct Area.violations
        { Latitude := la, Longitude := lo, LatitudeDelta := dla, LongitudeDelta := dlo }
        = some errs ∧
      GetGeo lib hs newResponse { Body := body, Vars := order } store =
        (.returned, { store := store, calls := [],
                      resp := ValidationError lib (JSONResponse newResponse) errs,
                      bodyClosed := true }) ∧
      400 ≤ (GetGeo lib hs newResponse { Body := body, Vars := order } store).2.resp.status ∧
      (GetGeo lib hs newResponse { Body := body, Vars := order } store).2.resp.status < 500 := by
  have hv : ∃ errs, ValidateStruct Area.violations
      { Latitude := la, Longitude := lo, LatitudeDelta := dla, LongitudeDelta := dlo }
      = some errs := by
    rcases hbad with h | h
    · exact ValidateStruct_some_of_ne_none _ _ h
    · exact validateArea_negative_delta _ h
  obtain ⟨errs, herrs⟩ := hv
  have hrun : GetGeo lib hs newResponse { Body := body, Vars := order } store =
      (.returned, { store := store, calls := [],
                    resp := ValidationError lib (JSONResponse newResponse) errs,
                    bodyClosed := true }) := by
    rw [GetGeo_run lib hs store body order a b c d la lo dla dlo hperm ha hb hc hd, herrs]
  have hst := (ValidationError_fresh lib (JSONResponse newResponse) errs rfl).1
  refine ⟨errs, herrs, hrun, ?_, ?_⟩
  · rw [hrun]; simp only [hst]; exact lib.validationStatus_4xx.1
  · rw [hrun]; simp only [hst]; exact lib.validationStatus_4xx.2

/-- C6, amended: when the Area of a GET /geo request is valid and
GetPointsInArea succeeds, GetGeo returns with status 200 committed and a body
that is the JSON encoding, followed by a newline, of exactly the slice the
storage adapter returned: for a slice that is not nil the JSON array of the
encodings of its points, in the order the adapter returned them, which is
the empty JSON array when that slice holds no point, and for the nil slice
the JSON value null. -/
theorem GetGeo_returns_storage_points {σ : Type} (lib : Lib) (hs : GeoHandlers σ)
    (store s1 : σ) (body : String) (order : List (String × String))
    (a b c d : String) (la lo dla dlo : Float64) (points : Slice Point)
    (hperm : order.Perm (geoVars a b c d))
    (ha : lib.parseFloat a = .ok la) (hb : lib.parseFloat b = .ok lo)
    (hc : lib.parseFloat c = .ok dla) (hd : lib.parseFloat d = .ok dlo)
    (hvalid : ValidateStruct Area.violations
      { Latitude := la, Longitude := lo, LatitudeDelta := dla, LongitudeDelta := dlo } = none)
    (hget : hs.geoStorage.GetPointsInArea store
      { Latitude := la, Longitude := lo, LatitudeDelta := dla, LongitudeDelta := dlo }
      = (.ok points, s1)) :
    (GetGeo lib hs newResponse { Body := body, Vars := order } store).1 = .returned ∧
    (GetGeo lib hs newResponse { Body := body, Vars := order } store).2.store = s1 ∧
    (GetGeo lib hs newResponse { Body := body, Vars := order } store).2.resp.wroteHeader = true ∧
    (GetGeo lib hs newResponse { Body := body, Vars := order } store).2.resp.status = 200 ∧
    (∀ elems : List Point, points = some elems →
      (GetGeo lib hs newResponse { Body := body, Vars := order } store).2.resp.body =
        "[" ++ ",".intercalate (elems.map lib.marshalPoint) ++ "]" ++ "\n") ∧
    (points = some [] →
      (GetGeo lib hs newResponse { Body := body, Vars := order } store).2.resp.body = "[]\n") ∧
    (points = none →
      (GetGeo lib hs newResponse { Body := body, Vars := order } store).2.resp.body
        = "null\n") := by
  have hrun : GetGeo lib hs newResponse { Body := body, Vars := order } store =
      (.returned,
        { store := s1,
          calls := [StorageCall.GetPointsInArea
            { Latitude := la, Longitude := lo, LatitudeDelta := dla, LongitudeDelta := dlo }],
          resp := Encode (JSONResponse newResponse) (marshalPoints lib points),
          bodyClosed := true }) := by
    rw [GetGeo_run lib hs store body order a b c d la lo dla dlo hperm ha hb hc hd, hvalid]
    simp only [hget]
  have hbody : (Encode (JSONResponse newResponse) (marshalPoints lib points)).body =
      marshalPoints lib points ++ "\n" := by
    simp [Encode, ResponseWriter.Write, ResponseWriter.WriteHeader, ResponseWriter.HeaderSet,
      JSONResponse, newResponse]
  rw [hrun]
  refine ⟨rfl, rfl, ?_, ?_, ?_, ?_, ?_⟩
  · simp [Encode, ResponseWriter.Write, ResponseWriter.WriteHeader, ResponseWriter.HeaderSet,
      JSONResponse, newResponse]
  · simp [Encode, ResponseWriter.Write, ResponseWriter.WriteHeader, ResponseWriter.HeaderSet,
      JSONResponse, newResponse, StatusOK]
  · intro elems hsome
    show (Encode (JSONResponse newResponse) (marshalPoints lib points)).body = _
    rw [hbody, hsome]
    simp [marshalPoints, String.append_assoc]
  · intro hsome
    show (Encode (JSONResponse newResponse) (marshalPoints lib points)).body = _
    rw [hbody, hsome]
    rfl
  · intro hnil
    show (Encode (JSONResponse newResponse) (marshalPoints lib points)).body = _
    rw [hbody, hnil]
    rfl

/-- C6, as stated, fails when the adapter answers with the nil slice: the
query 20,10,1,1 is valid and matches neither stored point, the in-memory
adapter succeeds with the nil slice it never appended to, and GetGeo returns
with status 200 and the body null, which is not the empty JSON array. -/
theorem GetGeo_nil_slice_null :
    ValidateStruct Area.violations
      { Latitude := 20, Longitude := 10, LatitudeDelta := 1, LongitudeDelta := 1 } = none ∧
    demoHandlers.geoStorage.GetPointsInArea fixtureStore
      { Latitude := 20, Longitude := 10, LatitudeDelta := 1, LongitudeDelta := 1 }
      = (.ok none, fixtureStore) ∧
    (GetGeo demoLib demoHandlers newResponse
      { Body := "", Vars := emptyQueryVars } fixtureStore).1 = Outcome.returned ∧
    (GetGeo demoLib demoHandlers newResponse
      { Body := "", Vars := emptyQueryVars } fixtureStore).2.resp.status = 200 ∧
    (GetGeo demoLib demoHandlers newResponse
      { Body := "", Vars := emptyQueryVars } fixtureStore).2.resp.body = "null\n" ∧
    (GetGeo demoLib demoHandlers newResponse
      { Body := "", Vars := emptyQueryVars } fixtureStore).2.resp.body ≠ "[]\n" := by
  have hvalid : ValidateStruct Area.violations
      { Latitude := 20, Longitude := 10, LatitudeDelta := 1, LongitudeDelta := 1 } = none := by
    decide
  have hfilter : fixtureStore.1.filter (inArea
      { Latitude := 20, Longitude := 10, LatitudeDelta := 1, LongitudeDelta := 1 }) = [] := by
    norm_num [fixtureStore, inArea, List.filter]
  have hget : demoHandlers.geoStorage.GetPointsInArea fixtureStore
      { Latitude := 20, Longitude := 10, LatitudeDelta := 1, LongitudeDelta := 1 }
      = (.ok none, fixtureStore) :=
    congrArg (fun l => ((Except.ok (collect l) : Except Error (Slice Point)), fixtureStore))
      hfilter
  have hrun := GetGeo_run demoLib demoHandlers fixtureStore "" emptyQueryVars
    "20" "10" "1" "1" 20 10 1 1 (List.Perm.refl _) rfl rfl rfl rfl
  rw [hvalid] at hrun
  simp only [hget] at hrun
  rw [hrun]
  exact ⟨hvalid, hget, rfl, by decide, by decide, by decide⟩

/-- C8: when at least one of the four path values of a GET /geo request does
not parse as a float, GetGeo panics, in whatever order the path variables are
iterated; no storage call is issued, so GetPointsInArea is not called, and
nothing is written to the response: no status is committed and the body is
empty. -/
theorem GetGeo_unparsable_panics {σ : Type} (lib : Lib) (hs : GeoHandlers σ) (store : σ)
    (body : String) (order : List (String × String)) (a b c d : String)
    (hperm : order.Perm (geoVars a b c d))
    (hbad : ∃ v ∈ [a, b, c, d], ∃ e, lib.parseFloat v = .error e) :
    ∃ err,
      GetGeo lib hs newResponse { Body := body, Vars := order } store =
        (.panicked err, { store := store, calls := [], resp := JSONResponse newResponse,
                          bodyClosed := true }) ∧
      (GetGeo lib hs newResponse { Body := body, Vars := order } store).2.resp.wroteHeader
        = false ∧
      (GetGeo lib hs newResponse { Body := body, Vars := order } store).2.resp.body = "" := by
  have hmem : ∃ kv ∈ order, ∃ e, lib.parseFloat kv.2 = .error e := by
    obtain ⟨v, hv, e, he⟩ := hbad
    simp only [List.mem_cons, List.mem_singleton, List.mem_nil_iff, or_false] at hv
    rcases hv with rfl | rfl | rfl | rfl
    · exact ⟨("latitude", v), hperm.mem_iff.2 (by simp [geoVars]), e, he⟩
    · exact ⟨("longitude", v), hperm.mem_iff.2 (by simp [geoVars]), e, he⟩
    · exact ⟨("latitudeDelta", v), hperm.mem_iff.2 (by simp [geoVars]), e, he⟩
    · exact ⟨("longitudeDelta", v), hperm.mem_iff.2 (by simp [geoVars]), e, he⟩
  obtain ⟨err, herr⟩ := parseVars_error order (fun _ => 0) hmem
  have hrun : GetGeo lib hs newResponse { Body := body, Vars := order } store =
      (.panicked err, { store := store, calls := [], resp := JSONResponse newResponse,
                        bodyClosed := true }) := by
    simp only [GetGeo, GetGeoBody, herr, MustCloseBody]
  refine ⟨err, hrun, ?_, ?_⟩ <;> rw [hrun] <;> rfl

/-- C10: when the path variables latitude, longitude, latitudeDelta and
longitudeDelta of a GET /geo request all parse as floats and the assembled
Area validates, GetPointsInArea is called exactly once, and it is the only
storage call, on the storage of the request and with the Area whose
Latitude, Longitude, LatitudeDelta and LongitudeDelta are the parsed values
of the path variables of the same names, in whatever order the variables
are iterated; the storage is left as that call left it, and the result of
that call decides the rest: its error is the panic of the handler, its
points are what is encoded to the response. -/
theorem GetGeo_queries_parsed_area {σ : Type} (lib : Lib) (hs : GeoHandlers σ) (store : σ)
    (body : String) (order : List (String × String))
    (a b c d : String) (la lo dla dlo : Float64)
    (hperm : order.Perm
      [("latitude", a), ("longitude", b), ("latitudeDelta", c), ("longitudeDelta", d)])
    (ha : lib.parseFloat a = .ok la) (hb : lib.parseFloat b = .ok lo)
    (hc : lib.parseFloat c = .ok dla) (hd : lib.parseFloat d = .ok dlo)
    (hvalid : ValidateStruct Area.violations
      { Latitude := la, Longitude := lo, LatitudeDelta := dla, LongitudeDelta := dlo } = none) :
    (GetGeo lib hs newResponse { Body := body, Vars := order } store).2.calls =
      [StorageCall.GetPointsInArea
        { Latitude := la, Longitude := lo, LatitudeDelta := dla, LongitudeDelta := dlo }] ∧
    GetGeo lib hs newResponse { Body := body, Vars := order } store =
      ((match (hs.geoStorage.GetPointsInArea store
            { Latitude := la, Longitude := lo, LatitudeDelta := dla,
              LongitudeDelta := dlo }).1 with
        | .error err => Outcome.panicked err
        | .ok _ => Outcome.returned),
       { store := (hs.geoStorage.GetPointsInArea store
            { Latitude := la, Longitude := lo, LatitudeDelta := dla,
              LongitudeDelta := dlo }).2,
         calls := [StorageCall.GetPointsInArea
            { Latitude := la, Longitude := lo, LatitudeDelta := dla,
              LongitudeDelta := dlo }],
         resp := (match (hs.geoStorage.GetPointsInArea store
            { Latitude := la, Longitude := lo, LatitudeDelta := dla,
              LongitudeDelta := dlo }).1 with
          | .error _ => JSONResponse newResponse
          | .ok points => Encode (JSONResponse newResponse) (marshalPoints lib points)),
         bodyClosed := true }) := by
  rw [GetGeo_run lib hs store body order a b c d la lo dla dlo hperm ha hb hc hd, hvalid]
  simp only []
  cases (hs.geoStorage.GetPointsInArea store
      { Latitude := la, Longitude := lo, LatitudeDelta := dla, LongitudeDelta := dlo }).1 with
  | error err => exact ⟨rfl, rfl⟩
  | ok points => exact ⟨rfl, rfl⟩

/-! ## The theorems at concrete requests -/

/-- The point (91, 20) is rejected with a 4xx response and nothing is stored. -/
theorem PostGeo_invalid_point_stops_witness :
    ∃ errs, validatePoint badPoint = some errs ∧
      PostGeo demoLib demoHandlers newResponse badRequest ([], []) =
        (.returned, { store := ([], []), calls := [],
                      resp := ValidationError demoLib (JSONResponse newResponse) errs,
                      bodyClosed := true }) ∧
      400 ≤ (PostGeo demoLib demoHandlers newResponse badRequest ([], [])).2.resp.status ∧
      (PostGeo demoLib demoHandlers newResponse badRequest ([], [])).2.resp.status < 500 :=
  PostGeo_invalid_point_stops demoLib demoHandlers badRequest ([], []) badPoint rfl
    (Or.inr (Or.inl (by decide)))

/-- The point (10, 20) is written, then its chat, and nothing else. -/
theorem PostGeo_success_two_writes_witness :
    (PostGeo demoLib demoHandlers newResponse goodRequest ([], [])).1 = .returned ∧
    (PostGeo demoLib demoHandlers newResponse goodRequest ([], [])).2.calls =
      [StorageCall.AddPoint goodPoint,
       StorageCall.AddChat { ID := ⟨""⟩, Title := "No name", PointID := storedPoint.ID }] ∧
    (PostGeo demoLib demoHandlers newResponse goodRequest ([], [])).2.store
      = ([storedPoint], [storedChat]) :=
  PostGeo_success_two_writes demoLib demoHandlers goodRequest ([], []) ([storedPoint], [])
    ([storedPoint], [storedChat]) goodPoint storedPoint storedChat chatRoute "/chats/p1"
    rfl (by decide) rfl rfl rfl rfl

/-- With the chat storage unavailable the point (10, 20) stays stored and the
request panics before anything is written to the response. -/
theorem PostGeo_chat_failure_panics_witness :
    PostGeo demoLib handlersChatDown newResponse goodRequest ([], []) =
      (.panicked "chat storage unavailable",
        { store := ([storedPoint], []),
          calls := [StorageCall.AddPoint goodPoint,
            StorageCall.AddChat { ID := ⟨""⟩, Title := "No name", PointID := storedPoint.ID }],
          resp := JSONResponse newResponse,
          bodyClosed := true }) ∧
    (PostGeo demoLib handlersChatDown newResponse goodRequest ([], [])).2.resp.wroteHeader
      = false ∧
    headerGet "Location"
      (PostGeo demoLib handlersChatDown newResponse goodRequest ([], [])).2.resp.header = none ∧
    (PostGeo demoLib handlersChatDown newResponse goodRequest ([], [])).2.resp.body = "" :=
  PostGeo_chat_failure_panics demoLib handlersChatDown goodRequest ([], []) ([storedPoint], [])
    ([storedPoint], []) goodPoint storedPoint "chat storage unavailable"
    rfl (by decide) rfl rfl

/-- With the route registered the point (10, 20) comes back with status 201
and its identifier p1. -/
theorem PostGeo_created_body_witness :
    ((-90 ≤ goodPoint.Latitude ∧ goodPoint.Latitude ≤ 90) ∧
      (-180 ≤ goodPoint.Longitude ∧ goodPoint.Longitude ≤ 180)) ∧
    (PostGeo demoLib demoHandlers newResponse goodRequest ([], [])).1 = .returned ∧
    (PostGeo demoLib demoHandlers newResponse goodRequest ([], [])).2.store
      = ([storedPoint], [storedChat]) ∧
    (PostGeo demoLib demoHandlers newResponse goodRequest ([], [])).2.resp.wroteHeader = true ∧
    (PostGeo demoLib demoHandlers newResponse goodRequest ([], [])).2.resp.status = 201 ∧
    (PostGeo demoLib demoHandlers newResponse goodRequest ([], [])).2.resp.body =
      demoLib.marshalPoint
        { Latitude := goodPoint.Latitude, Longitude := goodPoint.Longitude,
          ID := storedPoint.ID } ++ "\n" ∧
    ({ Latitude := goodPoint.Latitude, Longitude := goodPoint.Longitude,
       ID := storedPoint.ID } : Point).ID.Hex ≠ "" :=
  PostGeo_created_body demoLib demoHandlers goodRequest ([], []) ([storedPoint], [])
    ([storedPoint], [storedChat]) goodPoint storedPoint storedChat chatRoute "/chats/p1"
    rfl (by decide) rfl (by decide) rfl rfl rfl rfl

/-- The query 10,20,-1,1 is rejected with a 4xx response and no storage call. -/
theorem GetGeo_invalid_area_stops_witness :
    ∃ errs,
      ValidateStruct Area.violations
        { Latitude := 10, Longitude := 20, LatitudeDelta := -1, LongitudeDelta := 1 }
        = some errs ∧
      GetGeo demoLib demoHandlers newResponse
          { Body := "", Vars := (geoVars "10" "20" "-1" "1").reverse } fixtureStore =
        (.returned, { store := fixtureStore, calls := [],
                      resp := ValidationError demoLib (JSONResponse newResponse) errs,
                      bodyClosed := true }) ∧
      400 ≤ (GetGeo demoLib demoHandlers newResponse
          { Body := "", Vars := (geoVars "10" "20" "-1" "1").reverse } fixtureStore).2.resp.status ∧
      (GetGeo demoLib demoHandlers newResponse
          { Body := "", Vars := (geoVars "10" "20" "-1" "1").reverse } fixtureStore).2.resp.status
        < 500 :=
  GetGeo_invalid_area_stops demoLib demoHandlers fixtureStore ""
    (geoVars "10" "20" "-1" "1").reverse "10" "20" "-1" "1" 10 20 (-1) 1
    (List.reverse_perm _) rfl rfl rfl rfl (Or.inr (Or.inl (by decide)))

/-- The query 10,20,1,1 over the stored points (10.5, 20.5) and (50, 50)
answers 200 with the array holding the first point only. -/
theorem GetGeo_returns_storage_points_witness :
    (GetGeo demoLib demoHandlers newResponse
      { Body := "", Vars := shuffledVars } fixtureStore).1 = .returned ∧
    (GetGeo demoLib demoHandlers newResponse
      { Body := "", Vars := shuffledVars } fixtureStore).2.store = fixtureStore ∧
    (GetGeo demoLib demoHandlers newResponse
      { Body := "", Vars := shuffledVars } fixtureStore).2.resp.wroteHeader = true ∧
    (GetGeo demoLib demoHandlers newResponse
      { Body := "", Vars := shuffledVars } fixtureStore).2.resp.status = 200 ∧
    (∀ elems : List Point, some [nearPoint] = some elems →
      (GetGeo demoLib demoHandlers newResponse
        { Body := "", Vars := shuffledVars } fixtureStore).2.resp.body =
        "[" ++ ",".intercalate (elems.map demoLib.marshalPoint) ++ "]" ++ "\n") ∧
    (some [nearPoint] = some [] →
      (GetGeo demoLib demoHandlers newResponse
        { Body := "", Vars := shuffledVars } fixtureStore).2.resp.body = "[]\n") ∧
    (some [nearPoint] = none →
      (GetGeo demoLib demoHandlers newResponse
        { Body := "", Vars := shuffledVars } fixtureStore).2.resp.body = "null\n") :=
  GetGeo_returns_storage_points demoLib demoHandlers fixtureStore fixtureStore ""
    shuffledVars "10" "20" "1" "1" 10 20 1 1 (some [nearPoint])
    (by decide) rfl rfl rfl rfl (by decide)
    (congrArg (fun l => ((Except.ok (collect l) : Except Error (Slice Point)), fixtureStore))
      (by norm_num [fixtureStore, inArea, queryArea, nearPoint, List.filter] :
        fixtureStore.1.filter (inArea queryArea) = [nearPoint]))

/-- The query 10,abc,1,1 panics with the variables iterated in reverse. -/
theorem GetGeo_unparsable_panics_witness :
    ∃ err,
      GetGeo demoLib demoHandlers newResponse
          { Body := "", Vars := (geoVars "10" "abc" "1" "1").reverse } fixtureStore =
        (.panicked err, { store := fixtureStore, calls := [], resp := JSONResponse newResponse,
                          bodyClosed := true }) ∧
      (GetGeo demoLib demoHandlers newResponse
          { Body := "", Vars := (geoVars "10" "abc" "1" "1").reverse }
          fixtureStore).2.resp.wroteHeader = false ∧
      (GetGeo demoLib demoHandlers newResponse
          { Body := "", Vars := (geoVars "10" "abc" "1" "1").reverse }
          fixtureStore).2.resp.body = "" :=
  GetGeo_unparsable_panics demoLib demoHandlers fixtureStore ""
    (geoVars "10" "abc" "1" "1").reverse "10" "abc" "1" "1" (List.reverse_perm _)
    ⟨"abc", by decide, "strconv.ParseFloat: invalid syntax", rfl⟩

/-- The query 10,20,1,2 reaches the storage once, with centre (10, 20),
latitude delta 1 and longitude delta 2, under a shuffled iteration order; on
the storage holding (10.5, 21.5) that area holds the point, and the area with
the two deltas exchanged does not. -/
theorem GetGeo_queries_parsed_area_witness :
    ((GetGeo demoLib demoHandlers newResponse
        { Body := "", Vars := unevenVars } eastStore).2.calls =
      [StorageCall.GetPointsInArea
        { Latitude := 10, Longitude := 20, LatitudeDelta := 1, LongitudeDelta := 2 }] ∧
    GetGeo demoLib demoHandlers newResponse { Body := "", Vars := unevenVars } eastStore =
      ((match (demoHandlers.geoStorage.GetPointsInArea eastStore
            { Latitude := 10, Longitude := 20, LatitudeDelta := 1,
              LongitudeDelta := 2 }).1 with
        | .error err => Outcome.panicked err
        | .ok _ => Outcome.returned),
       { store := (demoHandlers.geoStorage.GetPointsInArea eastStore
            { Latitude := 10, Longitude := 20, LatitudeDelta := 1,
              LongitudeDelta := 2 }).2,
         calls := [StorageCall.GetPointsInArea
            { Latitude := 10, Longitude := 20, LatitudeDelta := 1,
              LongitudeDelta := 2 }],
         resp := (match (demoHandlers.geoStorage.GetPointsInArea eastStore
            { Latitude := 10, Longitude := 20, LatitudeDelta := 1,
              LongitudeDelta := 2 }).1 with
          | .error _ => JSONResponse newResponse
          | .ok points => Encode (JSONResponse newResponse) (marshalPoints demoLib points)),
         bodyClosed := true })) ∧
    demoHandlers.geoStorage.GetPointsInArea eastStore
      { Latitude := 10, Longitude := 20, LatitudeDelta := 1, LongitudeDelta := 2 }
      = (.ok (some [eastPoint]), eastStore) ∧
    demoHandlers.geoStorage.GetPointsInArea eastStore
      { Latitude := 10, Longitude := 20, LatitudeDelta := 2, LongitudeDelta := 1 }
      = (.ok none, eastStore) :=
  ⟨GetGeo_queries_parsed_area demoLib demoHandlers eastStore "" unevenVars
      "10" "20" "1" "2" 10 20 1 2 (by decide) rfl rfl rfl rfl (by decide),
    congrArg (fun l => ((Except.ok (collect l) : Except Error (Slice Point)), eastStore))
      (by norm_num [eastStore, eastPoint, inArea, List.filter] :
        eastStore.1.filter (inArea
          { Latitude := 10, Longitude := 20, LatitudeDelta := 1, LongitudeDelta := 2 })
          = [eastPoint]),
    congrArg (fun l => ((Except.ok (collect l) : Except Error (Slice Point)), eastStore))
      (by norm_num [eastStore, eastPoint, inArea, List.filter] :
        eastStore.1.filter (inArea
          { Latitude := 10, Longitude := 20, LatitudeDelta := 2, LongitudeDelta := 1 })
          = [])⟩

end Geochats
